import Mathlib

/-!
# Verification of the Whisk native launcher (`src/scripts/launcher.c`)

Shallow embedding of the 40-line macOS launcher shim.  The program:

1. queries `_NSGetExecutablePath` into a 4096-byte stack buffer
   (failure: buffer too small → diagnostic, exit 1);
2. calls `realpath(exe_path, NULL)` to obtain the symlink-resolved path,
   as a fresh heap allocation (failure: NULL → diagnostic, exit 1);
3. takes `dirname` of the resolved path and composes
   `snprintf(script_path, 4096, "%s/launcher.sh", dir)` — silent
   truncation to 4095 characters plus the terminating NUL;
4. frees the heap allocation, then `execl("/bin/bash", "bash",
   script_path, NULL)`; on exec success the process image is replaced,
   on failure `perror("Failed to launch")` runs and `main` returns 1.

Paths are modelled as Lean `String`s (the C program treats them as
opaque byte strings; we identify bytes with characters, which is exact
for ASCII paths).  The NUL terminator of C strings is implicit in the
`String` model.  The platform facilities the program calls are fields
of an `Env`: what `_NSGetExecutablePath` reports, what `realpath`
resolves, whether the `execl` of `/bin/bash` succeeds and the
`strerror(errno)` text when it does not.  Note that the success of
`execl("/bin/bash", ...)` depends only on `/bin/bash` being an
executable file — the script path is an opaque argument to `exec`, not
checked for existence (the design document confirms this: "no existence
check is performed beforehand").  Whether `launcher.sh` exists is
therefore carried in the environment (`scriptExists`) but, faithfully
to the code, never read by `run`.
-/

/-- POSIX `dirname` on a list of characters (the algorithm of
`libgen.h` `dirname` as specified by POSIX: strip trailing slashes,
drop the final component, strip trailing slashes again, with the
special cases for the empty string, for strings of slashes only and
for slash-free strings). -/
def dropTrailing (c : Char) (l : List Char) : List Char :=
  (l.reverse.dropWhile (· = c)).reverse

def dirnameL (p : List Char) : List Char :=
  let p1 := dropTrailing '/' p
  if p1 = [] then
    -- p was empty ("." per POSIX) or consisted only of slashes ("/")
    if p = [] then ['.'] else ['/']
  else
    let p2 := (p1.reverse.dropWhile (· ≠ '/')).reverse
    if p2 = [] then ['.']
    else
      let p3 := dropTrailing '/' p2
      if p3 = [] then ['/'] else p3

/-- POSIX `dirname` on strings, as called at line 30 of `launcher.c`. -/
def dirname (s : String) : String := ⟨dirnameL s.data⟩

/-- `snprintf(script_path, 4096, "%s/launcher.sh", dir)`: the composed
string, silently truncated to at most 4095 characters so that it fits,
NUL-terminated, in the 4096-byte destination buffer. -/
def snprintfScript (dir : String) : String :=
  ⟨(dir ++ "/launcher.sh").data.take 4095⟩

/-- The platform state an execution of the program runs against. -/
structure Env where
  /-- What `_NSGetExecutablePath` reports: `none` models the nonzero
  return (destination buffer too small for the path), `some p` models
  success filling the buffer with `p`. -/
  nsExecPath : Option String
  /-- `realpath(p, NULL)`: `none` models a NULL return (the path does
  not resolve to an existing filesystem entry), `some r` models success
  returning a freshly heap-allocated, symlink-resolved absolute path. -/
  realpathFn : String → Option String
  /-- Whether `execl("/bin/bash", ...)` succeeds, i.e. whether
  `/bin/bash` exists and is executable by this process.  Exec success
  is independent of the script argument. -/
  execOk : Bool
  /-- `strerror(errno)` after a failed `execl`, as printed by `perror`. -/
  execErrMsg : String
  /-- Whether `launcher.sh` exists at the composed path.  Part of the
  world state; the program never reads it. -/
  scriptExists : Bool

/-- Observable heap / process events of one execution, in order. -/
inductive Ev where
  /-- the heap allocation made by `realpath(exe_path, NULL)` -/
  | allocReal : Ev
  /-- the `free(real)` at line 33 -/
  | freeReal : Ev
  /-- the `execl` call: target path and the argv it passes -/
  | execCall : String → List String → Ev
deriving DecidableEq, Repr

/-- How the program's own code finishes: `exited s` means `main`
returned `s` (the process image was not replaced); `replaced p a`
means `execl` succeeded and the process image is now `p` running with
argv `a`. -/
inductive Outcome where
  | exited : Nat → Outcome
  | replaced : String → List String → Outcome
deriving DecidableEq, Repr

def Outcome.isExited : Outcome → Bool
  | .exited _ => true
  | .replaced _ _ => false

def Outcome.isReplaced : Outcome → Bool
  | .exited _ => false
  | .replaced _ _ => true

/-- Everything one execution of the program produces: the outcome, all
text written to standard error by the program itself, and the ordered
event trace. -/
structure RunResult where
  outcome : Outcome
  stderrOut : String
  events : List Ev
deriving DecidableEq, Repr

/-- Diagnostic printed at line 18. -/
def nsErrMsg : String := "Error: Could not determine executable path\n"

/-- Diagnostic printed at line 25. -/
def rpErrMsg : String := "Error: Could not resolve path\n"

/-- `main` of `launcher.c`, line by line.  `argv` models the C
`argc`/`argv` pair; the C code declares but never reads them. -/
def run (argv : List String) (env : Env) : RunResult :=
  match env.nsExecPath with
  | none => ⟨.exited 1, nsErrMsg, []⟩             -- lines 17–20
  | some exe =>
    match env.realpathFn exe with
    | none => ⟨.exited 1, rpErrMsg, []⟩           -- lines 23–27
    | some real =>
      let dir := dirname real                     -- line 30
      let script := snprintfScript dir            -- lines 31–32
      let evs := [Ev.allocReal, Ev.freeReal,      -- lines 23, 33, 36
        Ev.execCall "/bin/bash" ["bash", script]]
      if env.execOk then
        ⟨.replaced "/bin/bash" ["bash", script], "", evs⟩
      else                                        -- lines 38–40
        ⟨.exited 1, "Failed to launch: " ++ env.execErrMsg ++ "\n", evs⟩

/-- The target and argv of the (unique) `execl` call of an execution,
if one happened. -/
def execArgs (r : RunResult) : Option (String × List String) :=
  r.events.findSome? fun e =>
    match e with
    | .execCall p a => some (p, a)
    | _ => none

/-! ## Helper lemmas characterising the three exit paths -/

/-- If `_NSGetExecutablePath` fails, `main` prints the line-18
diagnostic and returns 1, with no allocation and no exec. -/
theorem run_ns_fail (argv : List String) (env : Env)
    (h : env.nsExecPath = none) :
    run argv env = ⟨.exited 1, nsErrMsg, []⟩ := by
  simp [run, h]

/-- If `realpath` fails, `main` prints the line-25 diagnostic and
returns 1, with no allocation and no exec. -/
theorem run_rp_fail (argv : List String) (env : Env) (p : String)
    (h1 : env.nsExecPath = some p) (h2 : env.realpathFn p = none) :
    run argv env = ⟨.exited 1, rpErrMsg, []⟩ := by
  simp [run, h1, h2]

/-- If self-location succeeds, the run is determined by whether the
`execl` succeeds; in both cases the trace is alloc, free, exec. -/
theorem run_resolved (argv : List String) (env : Env) (p r : String)
    (h1 : env.nsExecPath = some p) (h2 : env.realpathFn p = some r) :
    run argv env =
      if env.execOk then
        ⟨.replaced "/bin/bash" ["bash", snprintfScript (dirname r)], "",
          [Ev.allocReal, Ev.freeReal,
            Ev.execCall "/bin/bash" ["bash", snprintfScript (dirname r)]]⟩
      else
        ⟨.exited 1, "Failed to launch: " ++ env.execErrMsg ++ "\n",
          [Ev.allocReal, Ev.freeReal,
            Ev.execCall "/bin/bash" ["bash", snprintfScript (dirname r)]]⟩ := by
  simp only [run, h1, h2]

/-- When the composed path fits the 4096-byte buffer (at most 4095
characters plus the NUL), `snprintf` performs no truncation.  Every
real installation satisfies the bound: `realpath` results are shorter
than `PATH_MAX` (1024 bytes on the target platform). -/
theorem snprintfScript_of_short (dir : String) (h : dir.length + 12 ≤ 4095) :
    snprintfScript dir = dir ++ "/launcher.sh" := by
  unfold snprintfScript
  have hl : (dir ++ "/launcher.sh").data.length ≤ 4095 := by
    rw [String.data_append, List.length_append]
    have h3 : "/launcher.sh".data.length = 12 := by decide
    rw [h3]
    exact h
  rw [List.take_of_length_le hl]

/-- The message printed by `perror("Failed to launch")` is never the
empty string, whatever `strerror(errno)` returned. -/
theorem perror_msg_ne_empty (m : String) :
    "Failed to launch: " ++ m ++ "\n" ≠ "" := by
  intro h
  have h2 := congrArg String.length h
  rw [String.length_append, String.length_append] at h2
  have h3 : ("Failed to launch: " : String).length = 18 := by decide
  have h4 : ("\n" : String).length = 1 := by decide
  have h5 : ("" : String).length = 0 := rfl
  rw [h3, h4, h5] at h2
  omega

/-! ## Concrete environments used by witnesses and counterexamples -/

/-- The spec's example installation: binary at
`/Apps/Foo.app/Contents/MacOS/Foo`, not reached through a symlink,
`launcher.sh` present, `/bin/bash` executable. -/
def fooEnv : Env :=
  { nsExecPath := some "/Apps/Foo.app/Contents/MacOS/Foo"
    realpathFn := fun p =>
      if p = "/Apps/Foo.app/Contents/MacOS/Foo"
        then some "/Apps/Foo.app/Contents/MacOS/Foo" else none
    execOk := true
    execErrMsg := ""
    scriptExists := true }

/-- The same installation reached through the symlink
`/usr/local/bin/foo` pointing at the real binary. -/
def symEnv : Env :=
  { nsExecPath := some "/usr/local/bin/foo"
    realpathFn := fun p =>
      if p = "/usr/local/bin/foo"
        then some "/Apps/Foo.app/Contents/MacOS/Foo" else none
    execOk := true
    execErrMsg := ""
    scriptExists := true }

/-- `_NSGetExecutablePath` reports failure (buffer too small). -/
def nsFailEnv : Env :=
  { nsExecPath := none
    realpathFn := fun _ => none
    execOk := true
    execErrMsg := ""
    scriptExists := true }

/-- The reported path does not resolve: `realpath` returns NULL. -/
def rpFailEnv : Env :=
  { nsExecPath := some "/x/exe"
    realpathFn := fun _ => none
    execOk := true
    execErrMsg := ""
    scriptExists := true }

/-- Self-location succeeds but `/bin/bash` cannot be executed. -/
def execFailEnv : Env :=
  { nsExecPath := some "/x/exe"
    realpathFn := fun p => if p = "/x/exe" then some "/x/exe" else none
    execOk := false
    execErrMsg := "No such file or directory"
    scriptExists := true }

/-- Binary present and resolvable, `/bin/bash` executable, but
`launcher.sh` absent from the binary's directory. -/
def noScriptEnv : Env :=
  { nsExecPath := some "/Apps/Foo.app/Contents/MacOS/Foo"
    realpathFn := fun p =>
      if p = "/Apps/Foo.app/Contents/MacOS/Foo"
        then some "/Apps/Foo.app/Contents/MacOS/Foo" else none
    execOk := true
    execErrMsg := ""
    scriptExists := false }

/-- A resolved path whose directory has 4101 characters, so the
composed script path (4113 characters) overflows the 4096-byte
buffer. -/
def longReal : String := ⟨'/' :: (List.replicate 4100 'a' ++ ['/', 'e'])⟩

/-- Environment in which `realpath` reports `longReal`. -/
def longEnv : Env :=
  { nsExecPath := some "/x/exe"
    realpathFn := fun p => if p = "/x/exe" then some longReal else none
    execOk := true
    execErrMsg := ""
    scriptExists := true }

/-! ## The claims -/

/-- C1: for every valid installation (self-location succeeds and
`launcher.sh` is present alongside the resolved binary; the composed
path fits the buffer, as every path a real `realpath` can produce
does), the program makes exactly one `execl` call, its target is the
fixed path `/bin/bash`, and the script argument (the single argv entry
after `argv[0]`) equals the parent directory of the resolved
executable path concatenated with `"/launcher.sh"`. -/
theorem c1_valid_install_invokes_bash_on_sibling_script
    (argv : List String) (env : Env) (p r : String)
    (h1 : env.nsExecPath = some p) (h2 : env.realpathFn p = some r)
    (h3 : env.scriptExists = true) (h4 : (dirname r).length + 12 ≤ 4095) :
    (run argv env).events =
      [Ev.allocReal, Ev.freeReal,
        Ev.execCall "/bin/bash" ["bash", dirname r ++ "/launcher.sh"]] := by
  rw [run_resolved argv env p r h1 h2, snprintfScript_of_short _ h4]
  cases hE : env.execOk <;> simp [hE]

/-- Witness for C1 at the spec's example installation. -/
theorem c1_witness :
    (run [] fooEnv).events =
      [Ev.allocReal, Ev.freeReal,
        Ev.execCall "/bin/bash"
          ["bash", dirname "/Apps/Foo.app/Contents/MacOS/Foo" ++ "/launcher.sh"]] :=
  c1_valid_install_invokes_bash_on_sibling_script [] fooEnv
    "/Apps/Foo.app/Contents/MacOS/Foo" "/Apps/Foo.app/Contents/MacOS/Foo"
    rfl (by decide) rfl (by decide)

/-- C3: the composed script path is a function of the symlink-resolved
path `r` returned by `realpath` alone: it equals
`snprintfScript (dirname r)`, and any two executions whose `realpath`
results agree — even when the reported (symlink) locations `p₁`, `p₂`
differ — pass the same exec arguments. -/
theorem c3_script_built_from_resolved_dir
    (argv₁ argv₂ : List String) (env₁ env₂ : Env) (p₁ p₂ r : String)
    (h1 : env₁.nsExecPath = some p₁) (h2 : env₁.realpathFn p₁ = some r)
    (h3 : env₂.nsExecPath = some p₂) (h4 : env₂.realpathFn p₂ = some r) :
    execArgs (run argv₁ env₁)
      = some ("/bin/bash", ["bash", snprintfScript (dirname r)])
    ∧ execArgs (run argv₁ env₁) = execArgs (run argv₂ env₂) := by
  rw [run_resolved argv₁ env₁ p₁ r h1 h2, run_resolved argv₂ env₂ p₂ r h3 h4]
  cases hE : env₁.execOk <;> cases hF : env₂.execOk <;>
    simp [execArgs, List.findSome?]

/-- Witness for C3: the direct installation and the one reached
through the symlink `/usr/local/bin/foo` compose the same script
path. -/
theorem c3_witness :
    execArgs (run [] fooEnv)
      = some ("/bin/bash",
          ["bash", snprintfScript (dirname "/Apps/Foo.app/Contents/MacOS/Foo")])
    ∧ execArgs (run [] fooEnv) = execArgs (run [] symEnv) :=
  c3_script_built_from_resolved_dir [] [] fooEnv symEnv
    "/Apps/Foo.app/Contents/MacOS/Foo" "/usr/local/bin/foo"
    "/Apps/Foo.app/Contents/MacOS/Foo" rfl (by decide) rfl (by decide)

/-- C4: if self-location fails — `_NSGetExecutablePath` cannot report
the path, or `realpath` cannot normalize it — the program writes a
non-empty diagnostic, returns exit status 1, and produces no events at
all: no path composition is consumed and no exec is attempted. -/
theorem c4_resolution_failure_exits_one
    (argv : List String) (env : Env)
    (h : env.nsExecPath = none
      ∨ ∃ p, env.nsExecPath = some p ∧ env.realpathFn p = none) :
    (run argv env).outcome = Outcome.exited 1
    ∧ (run argv env).stderrOut ≠ ""
    ∧ (run argv env).events = [] := by
  rcases h with h | ⟨p, h1, h2⟩
  · rw [run_ns_fail argv env h]
    exact ⟨rfl, by decide, rfl⟩
  · rw [run_rp_fail argv env p h1 h2]
    exact ⟨rfl, by decide, rfl⟩

/-- Witness for C4 at an environment where the platform query fails. -/
theorem c4_witness :
    (run [] nsFailEnv).outcome = Outcome.exited 1
    ∧ (run [] nsFailEnv).stderrOut ≠ ""
    ∧ (run [] nsFailEnv).events = [] :=
  c4_resolution_failure_exits_one [] nsFailEnv (Or.inl rfl)

/-- C5: if `execl` fails, control returns, the program writes the
`perror` line — which embeds the system-reported reason
`strerror(errno)` verbatim — to standard error, and exits with
status 1. -/
theorem c5_exec_failure_reports_reason
    (argv : List String) (env : Env) (p r : String)
    (h1 : env.nsExecPath = some p) (h2 : env.realpathFn p = some r)
    (h3 : env.execOk = false) :
    (run argv env).outcome = Outcome.exited 1
    ∧ (run argv env).stderrOut
        = "Failed to launch: " ++ env.execErrMsg ++ "\n" := by
  rw [run_resolved argv env p r h1 h2]
  simp [h3]

/-- Witness for C5 at an environment where `/bin/bash` is missing. -/
theorem c5_witness :
    (run [] execFailEnv).outcome = Outcome.exited 1
    ∧ (run [] execFailEnv).stderrOut
        = "Failed to launch: " ++ execFailEnv.execErrMsg ++ "\n" :=
  c5_exec_failure_reports_reason [] execFailEnv "/x/exe" "/x/exe"
    rfl (by decide) rfl


/-- The alloc–free–exec trace of any execution that reaches the
`execl`: at most one allocation, as many frees as allocations, and any
exec event in it is the last event, preceded by the free. -/
theorem count_trace (s : String) :
    ([Ev.allocReal, Ev.freeReal,
        Ev.execCall "/bin/bash" ["bash", s]].count Ev.allocReal ≤ 1)
    ∧ [Ev.allocReal, Ev.freeReal,
        Ev.execCall "/bin/bash" ["bash", s]].count Ev.freeReal
      = [Ev.allocReal, Ev.freeReal,
          Ev.execCall "/bin/bash" ["bash", s]].count Ev.allocReal
    ∧ ∀ p a,
        Ev.execCall p a ∈ [Ev.allocReal, Ev.freeReal,
          Ev.execCall "/bin/bash" ["bash", s]] →
        [Ev.allocReal, Ev.freeReal, Ev.execCall "/bin/bash" ["bash", s]]
          = [Ev.allocReal, Ev.freeReal, Ev.execCall p a] := by
  refine ⟨?_, ?_, ?_⟩
  · simp [List.count_cons]
  · simp [List.count_cons]
  · intro p a hmem
    simp only [List.mem_cons, List.not_mem_nil, or_false] at hmem
    rcases hmem with h | h | h
    · exact absurd h (by simp)
    · exact absurd h (by simp)
    · rw [h]

/-- C6: whenever `main` itself returns (the outcome is `exited s`),
the status `s` is exactly 1 — never 0 — and a non-empty diagnostic was
written to standard error first; status 0 can only arise through the
`replaced` outcome. -/
theorem c6_every_return_is_one_with_diagnostic
    (argv : List String) (env : Env) (s : Nat)
    (h : (run argv env).outcome = Outcome.exited s) :
    s = 1 ∧ (run argv env).stderrOut ≠ "" := by
  rcases hN : env.nsExecPath with _ | p
  · rw [run_ns_fail argv env hN] at h ⊢
    simp only [Outcome.exited.injEq] at h
    exact ⟨h.symm, by decide⟩
  · rcases hR : env.realpathFn p with _ | r
    · rw [run_rp_fail argv env p hN hR] at h ⊢
      simp only [Outcome.exited.injEq] at h
      exact ⟨h.symm, by decide⟩
    · rw [run_resolved argv env p r hN hR] at h ⊢
      cases hE : env.execOk
      · rw [hE] at h
        have h2 : Outcome.exited 1 = Outcome.exited s := h
        have h3 : (1 : Nat) = s := by injection h2
        exact ⟨h3.symm, perror_msg_ne_empty env.execErrMsg⟩
      · rw [hE] at h
        have h2 : Outcome.replaced "/bin/bash"
            ["bash", snprintfScript (dirname r)] = Outcome.exited s := h
        exact Outcome.noConfusion h2

/-- Witness for C6 at the failed-exec environment. -/
theorem c6_witness :
    (1 : Nat) = 1 ∧ (run [] execFailEnv).stderrOut ≠ "" :=
  c6_every_return_is_one_with_diagnostic [] execFailEnv 1 (by decide)

/-- C7: if process replacement succeeds nothing after the `execl`
executes — in particular the program writes nothing to standard error;
and the code after the `execl` (the `perror`/`return 1` tail, visible
as an `exited` outcome following an exec event) runs only when the
exec failed. -/
theorem c7_no_statement_after_successful_exec
    (argv : List String) (env : Env) :
    ((run argv env).outcome.isReplaced = true → (run argv env).stderrOut = "")
    ∧ (∀ p a, Ev.execCall p a ∈ (run argv env).events →
        (run argv env).outcome.isExited = true → env.execOk = false) := by
  rcases hN : env.nsExecPath with _ | p
  · rw [run_ns_fail argv env hN]
    exact ⟨fun hrep => Bool.noConfusion hrep,
      fun p a hmem => absurd hmem (List.not_mem_nil _)⟩
  · rcases hR : env.realpathFn p with _ | r
    · rw [run_rp_fail argv env p hN hR]
      exact ⟨fun hrep => Bool.noConfusion hrep,
        fun p a hmem => absurd hmem (List.not_mem_nil _)⟩
    · rw [run_resolved argv env p r hN hR]
      cases hE : env.execOk
      · exact ⟨fun hrep => Bool.noConfusion hrep, fun p a _ _ => rfl⟩
      · exact ⟨fun _ => rfl, fun p a _ hex => Bool.noConfusion hex⟩

/-- Witness for C7: in the failed-exec environment the exec event is
in the trace and the outcome is an exit, so the theorem yields that
the exec failed — and indeed it did. -/
theorem c7_witness : execFailEnv.execOk = false :=
  (c7_no_statement_after_successful_exec [] execFailEnv).2
    "/bin/bash" ["bash", "/x/launcher.sh"] (by decide) (by decide)

/-- C8: the program never reads `argc`/`argv`: two invocations that
differ only in their command-line arguments produce identical results
(same composed path, same exec arguments, same exit status, same
stderr). -/
theorem c8_argv_never_read (argv₁ argv₂ : List String) (env : Env) :
    run argv₁ env = run argv₂ env := rfl

/-- C9: on every execution the `realpath` heap allocation is released
exactly once (the counts of alloc and free events agree, and at most
one allocation ever happens), and whenever an exec is attempted the
trace is exactly alloc, free, exec — so the release precedes process
replacement. -/
theorem c9_realpath_allocation_freed_once
    (argv : List String) (env : Env) :
    (run argv env).events.count Ev.allocReal ≤ 1
    ∧ (run argv env).events.count Ev.freeReal
        = (run argv env).events.count Ev.allocReal
    ∧ (∀ p a, Ev.execCall p a ∈ (run argv env).events →
        (run argv env).events
          = [Ev.allocReal, Ev.freeReal, Ev.execCall p a]) := by
  rcases hN : env.nsExecPath with _ | p
  · rw [run_ns_fail argv env hN]
    exact ⟨by decide, by decide,
      fun p a hmem => absurd hmem (List.not_mem_nil _)⟩
  · rcases hR : env.realpathFn p with _ | r
    · rw [run_rp_fail argv env p hN hR]
      exact ⟨by decide, by decide,
        fun p a hmem => absurd hmem (List.not_mem_nil _)⟩
    · rw [run_resolved argv env p r hN hR]
      cases hE : env.execOk
      · exact count_trace (snprintfScript (dirname r))
      · exact count_trace (snprintfScript (dirname r))

/-- Witness for C9 at the failed-exec environment, where the full
alloc–free–exec trace is observable. -/
theorem c9_witness :
    (run [] execFailEnv).events.count Ev.allocReal ≤ 1
    ∧ (run [] execFailEnv).events.count Ev.freeReal
        = (run [] execFailEnv).events.count Ev.allocReal
    ∧ (run [] execFailEnv).events
        = [Ev.allocReal, Ev.freeReal,
            Ev.execCall "/bin/bash" ["bash", "/x/launcher.sh"]] :=
  ⟨(c9_realpath_allocation_freed_once [] execFailEnv).1,
   (c9_realpath_allocation_freed_once [] execFailEnv).2.1,
   (c9_realpath_allocation_freed_once [] execFailEnv).2.2
     "/bin/bash" ["bash", "/x/launcher.sh"] (by decide)⟩

/-- C2 counterexample: binary resolvable at the spec's example
location, `/bin/bash` executable, but `launcher.sh` absent.  The
program performs no existence check on the script: `execl` succeeds
(its success depends only on `/bin/bash`), the process image is
replaced, `main` never returns 1 and nothing is written to standard
error by this program.  (The replaced shell, not this program, then
reports the missing script and supplies its own nonzero exit code.) -/
theorem c2_counterexample :
    noScriptEnv.scriptExists = false
    ∧ noScriptEnv.nsExecPath = some "/Apps/Foo.app/Contents/MacOS/Foo"
    ∧ noScriptEnv.realpathFn "/Apps/Foo.app/Contents/MacOS/Foo"
        = some "/Apps/Foo.app/Contents/MacOS/Foo"
    ∧ (run [] noScriptEnv).outcome
        = Outcome.replaced "/bin/bash"
            ["bash", "/Apps/Foo.app/Contents/MacOS/launcher.sh"]
    ∧ (run [] noScriptEnv).outcome.isExited = false
    ∧ (run [] noScriptEnv).stderrOut = "" := by
  refine ⟨rfl, rfl, by decide, by decide, by decide, by decide⟩

/-- C2 amended: when the executable path resolves but `launcher.sh`
is absent, the launcher itself does not detect this.  If the shell
interpreter is available the process is still replaced by the shell
(which then reports the missing script); the launcher exits with
status 1 and a non-empty diagnostic only when the process-replacement
call itself fails. -/
theorem c2_missing_script_not_detected
    (argv : List String) (env : Env) (p r : String)
    (h1 : env.nsExecPath = some p) (h2 : env.realpathFn p = some r)
    (h3 : env.scriptExists = false) :
    (env.execOk = true →
      (run argv env).outcome
        = Outcome.replaced "/bin/bash" ["bash", snprintfScript (dirname r)]
      ∧ (run argv env).stderrOut = "")
    ∧ (env.execOk = false →
      (run argv env).outcome = Outcome.exited 1
      ∧ (run argv env).stderrOut ≠ "") := by
  rw [run_resolved argv env p r h1 h2]
  constructor
  · intro hE
    rw [hE]
    exact ⟨rfl, rfl⟩
  · intro hE
    rw [hE]
    exact ⟨rfl, perror_msg_ne_empty env.execErrMsg⟩

/-- Witness for the amended C2 at the missing-script environment. -/
theorem c2_witness :
    (run [] noScriptEnv).outcome
      = Outcome.replaced "/bin/bash"
          ["bash", snprintfScript (dirname "/Apps/Foo.app/Contents/MacOS/Foo")]
    ∧ (run [] noScriptEnv).stderrOut = "" :=
  (c2_missing_script_not_detected [] noScriptEnv
    "/Apps/Foo.app/Contents/MacOS/Foo" "/Apps/Foo.app/Contents/MacOS/Foo"
    rfl (by decide) rfl).1 rfl

/-- C10: when the parent directory plus `"/launcher.sh"` exceeds 4095
characters, `snprintf` silently truncates the composed path to exactly
4095 characters (it remains NUL-terminated inside the 4096-byte
buffer), no error is signalled, and the program still passes the
truncated path to the `execl` of `/bin/bash`; when the exec succeeds
the process is replaced with the truncated path and nothing is written
to standard error. -/
theorem c10_overlong_path_silently_truncated
    (argv : List String) (env : Env) (p r : String)
    (h1 : env.nsExecPath = some p) (h2 : env.realpathFn p = some r)
    (h3 : 4095 < (dirname r ++ "/launcher.sh").length) :
    execArgs (run argv env)
      = some ("/bin/bash", ["bash", snprintfScript (dirname r)])
    ∧ (snprintfScript (dirname r)).length = 4095
    ∧ snprintfScript (dirname r) ≠ dirname r ++ "/launcher.sh"
    ∧ (env.execOk = true →
        (run argv env).outcome
          = Outcome.replaced "/bin/bash" ["bash", snprintfScript (dirname r)]
        ∧ (run argv env).stderrOut = "") := by
  have hlen : (snprintfScript (dirname r)).length = 4095 := by
    show ((dirname r ++ "/launcher.sh").data.take 4095).length = 4095
    rw [List.length_take]
    exact Nat.min_eq_left (Nat.le_of_lt h3)
  refine ⟨?_, hlen, ?_, ?_⟩
  · rw [run_resolved argv env p r h1 h2]
    cases hE : env.execOk <;> simp [execArgs, List.findSome?]
  · intro heq
    rw [heq] at hlen
    omega
  · intro hE
    rw [run_resolved argv env p r h1 h2, hE]
    exact ⟨rfl, rfl⟩

/-- `dirname` of a path of the form
`'/' :: (replicate (m+1) 'a' ++ ['/', 'e'])` — a file `e` inside the
directory `/aa…a` — is that directory, computed symbolically so the
overlong witness below needs no deep evaluation. -/
theorem dirnameL_two_components (m : Nat) :
    dirnameL ('/' :: (List.replicate (m+1) 'a' ++ ['/', 'e']))
      = '/' :: List.replicate (m+1) 'a' := by
  have hRrev : (List.replicate (m+1) 'a').reverse = List.replicate (m+1) 'a' :=
    List.reverse_replicate (m+1) 'a'
  have hRhead : List.replicate (m+1) 'a' = 'a' :: List.replicate m 'a' :=
    List.replicate_succ 'a' m
  have h1 : ('/' :: (List.replicate (m+1) 'a' ++ ['/', 'e'])).reverse
      = 'e' :: '/' :: (List.replicate (m+1) 'a' ++ ['/']) := by
    simp [List.reverse_cons, List.reverse_append, hRrev, List.append_assoc]
  have h2 : ('e' :: '/' :: (List.replicate (m+1) 'a' ++ ['/'])).dropWhile (· = '/')
      = 'e' :: '/' :: (List.replicate (m+1) 'a' ++ ['/']) := by
    simp [List.dropWhile_cons]
  have h3 : dropTrailing '/' ('/' :: (List.replicate (m+1) 'a' ++ ['/', 'e']))
      = '/' :: (List.replicate (m+1) 'a' ++ ['/', 'e']) := by
    rw [dropTrailing, h1, h2, ← h1, List.reverse_reverse]
  have h4 : ('e' :: '/' :: (List.replicate (m+1) 'a' ++ ['/'])).dropWhile (· ≠ '/')
      = '/' :: (List.replicate (m+1) 'a' ++ ['/']) := by
    simp [List.dropWhile_cons]
  have h5 : (('/' :: (List.replicate (m+1) 'a' ++ ['/', 'e'])).reverse.dropWhile
        (· ≠ '/')).reverse
      = ('/' :: List.replicate (m+1) 'a') ++ ['/'] := by
    rw [h1, h4]
    simp [List.reverse_cons, List.reverse_append, hRrev]
  have h6i : (('/' :: List.replicate (m+1) 'a') ++ ['/']).reverse
      = '/' :: (List.replicate (m+1) 'a' ++ ['/']) := by
    simp [List.reverse_append, List.reverse_cons, hRrev, List.append_assoc]
  have h6ii : ('/' :: (List.replicate (m+1) 'a' ++ ['/'])).dropWhile (· = '/')
      = List.replicate (m+1) 'a' ++ ['/'] := by
    rw [hRhead]
    simp [List.dropWhile_cons]
  have h6 : dropTrailing '/' (('/' :: List.replicate (m+1) 'a') ++ ['/'])
      = '/' :: List.replicate (m+1) 'a' := by
    rw [dropTrailing, h6i, h6ii]
    simp [List.reverse_append, hRrev]
  simp only [dirnameL]
  rw [h3]
  rw [if_neg (by simp :
    ¬('/' :: (List.replicate (m+1) 'a' ++ ['/', 'e']) = ([] : List Char)))]
  rw [h5]
  rw [if_neg (by simp :
    ¬(('/' :: List.replicate (m+1) 'a') ++ ['/'] = ([] : List Char)))]
  rw [h6]
  rw [if_neg (by simp :
    ¬('/' :: List.replicate (m+1) 'a' = ([] : List Char)))]

/-- The parent directory of `longReal` is the 4101-character directory
`/aa…a`. -/
theorem dirname_longReal :
    dirname longReal = ⟨'/' :: List.replicate 4100 'a'⟩ :=
  congrArg String.mk (dirnameL_two_components 4099)

/-- The script path composed from `longReal` would have 4113
characters before truncation. -/
theorem longReal_script_length :
    (dirname longReal ++ "/launcher.sh").length = 4113 := by
  rw [dirname_longReal, String.length_append]
  have h1 : (String.mk ('/' :: List.replicate 4100 'a')).length = 4101 := by
    show ('/' :: List.replicate 4100 'a').length = 4101
    rw [List.length_cons, List.length_replicate]
  have h2 : ("/launcher.sh" : String).length = 12 := by decide
  rw [h1, h2]

/-- Witness for C10 at an environment whose resolved directory has
4101 characters, so the composed path would have 4113. -/
theorem c10_witness :
    execArgs (run [] longEnv)
      = some ("/bin/bash", ["bash", snprintfScript (dirname longReal)])
    ∧ (snprintfScript (dirname longReal)).length = 4095
    ∧ snprintfScript (dirname longReal) ≠ dirname longReal ++ "/launcher.sh" := by
  have hrp : longEnv.realpathFn "/x/exe" = some longReal := by
    show (if "/x/exe" = "/x/exe" then some longReal else none) = some longReal
    rw [if_pos rfl]
  have hlong : 4095 < (dirname longReal ++ "/launcher.sh").length := by
    rw [longReal_script_length]
    norm_num
  have h := c10_overlong_path_silently_truncated [] longEnv "/x/exe" longReal
    rfl hrp hlong
  exact ⟨h.1, h.2.1, h.2.2.1⟩
